import Mathlib

/-!
Verification development for the pySNID repository.

The repository orchestrates the external SNID classifier: it formats command
arguments (`pySNIDutils._z_arg`, `_template_arg`, `_rlap_arg`, `exec_SNID`),
parses the classifier's text report into a type table and a template table
(`_it_line_locate`, `read_output_file`), applies per-stage decision rules
(`SNID_type`, `SNID_subtype`, `SNID_redshift`, `SNID_age` in pySNID/pySNID.py)
and sequences the stages (`pySNID`).

This file is a shallow embedding of that code:
* Python scalar values passed as redshifts are modelled by `ZVal`
  (int / finite float / NaN / None / string).
* numpy structured-array rows become the structures `TypeRecord` and
  `TemplateRecord`; boolean-mask selection becomes `List.filter`; `[0]`
  indexing becomes `List.head?` with an `indexError` on the empty case;
  `np.max` of an empty selection is a `valueError`.
* `np.median` and `np.std` (population standard deviation) are modelled
  exactly on rationals, `np.std` landing in `ℝ` through `Real.sqrt`.
* the subprocess boundary (running SNID itself) is out of scope; the stage
  decision logic is embedded as a function of the parsed tables, and the
  pipeline is embedded as a function of stage-call oracles.
* `np.genfromtxt` is an external-library capability; the report-reading
  control flow of `read_output_file` is embedded with the two span parses
  passed in as abstract parse functions, and the unbounded `while True`
  retry loop is made total with a fuel parameter (`none` = still looping).
-/

/-- Python exception kinds that the embedded code can raise. -/
inductive PyError
  | indexError
  | valueError
  | typeError
deriving DecidableEq

/-- A Python value passed as a redshift argument: an int, a finite float,
the float NaN, None, or a string. -/
inductive ZVal
  | pyInt (n : Int)
  | pyFloat (q : ℚ)
  | pyNaN
  | pyNone
  | pyStr (s : String)
deriving DecidableEq

/-- Python `type(z) == type(0.1)`: is the value a float (NaN is a float). -/
def pyTypeIsFloat : ZVal → Bool
  | .pyFloat _ => true
  | .pyNaN => true
  | _ => false

/-- Python `type(z) == type(1)`: is the value an int. -/
def pyTypeIsInt : ZVal → Bool
  | .pyInt _ => true
  | _ => false

/-- The guard actually written in `pySNIDutils._z_arg` is `type(z) == (1)`:
it compares the type object of `z` with the integer `1`, which is False for
every value. -/
def pyTypeEqOne (_z : ZVal) : Bool := false

/-- Model of `np.isnan` on the values it is applied to here. -/
def np_isnan : ZVal → Bool
  | .pyNaN => true
  | _ => false

/-- Model of Python string formatting `'{}'.format(z)`. -/
def formatPy : ZVal → String
  | .pyInt n => toString n
  | .pyFloat q => toString q
  | .pyNaN => "nan"
  | .pyNone => "None"
  | .pyStr s => s

/-- Embedding of `pySNIDutils._z_arg`: emit `forcez=...` when
`((type(z) == type(0.1)) or (type(z) == (1))) and (not np.isnan(z))`,
otherwise the empty string.  The conjunction short-circuits exactly as in
Python: `np.isnan` is only reached for float-typed values. -/
def _z_arg (z : ZVal) : String :=
  if (pyTypeIsFloat z || pyTypeEqOne z) && !(np_isnan z) then
    "forcez=" ++ formatPy z
  else ""

/-- Embedding of `SNID_utils.z_arg`: emit `forcez=...` when
`type(z_host) is float or type(z_host) is int` (no NaN check). -/
def z_arg (z_host : ZVal) : String :=
  if pyTypeIsFloat z_host || pyTypeIsInt z_host then
    "forcez=" ++ formatPy z_host
  else ""

/-- The `rlap` argument of `exec_SNID`: either the string `'default'` or a
numeric rlap threshold. -/
inductive RlapArg
  | default
  | val (q : ℚ)
deriving DecidableEq

/-- Embedding of `pySNIDutils._rlap_arg`. -/
def _rlap_arg : RlapArg → String
  | .default => ""
  | .val q => "rlapmin=" ++ toString q

/-- Embedding of `pySNIDutils._template_arg`. -/
def _template_arg (template : String) : String :=
  if template = "all" then "" else "usetype=" ++ template

/-- Embedding of the command string built inside `pySNIDutils.exec_SNID`:
`'snid {} {} {} {} plot=0 inter=0 verbose=0 {}'.format(rlap_arg, forcez_arg,
ztol_arg, template_arg, fname)`. -/
def snid_command (fname : String) (z : ZVal) (template : String)
    (rlap : RlapArg) (z_tol : ℚ) : String :=
  "snid " ++ _rlap_arg rlap ++ " " ++ _z_arg z ++ " " ++
    ("zfilter=" ++ toString z_tol) ++ " " ++ _template_arg template ++
    " plot=0 inter=0 verbose=0 " ++ fname

/-- The formal parameter names of `pySNIDutils.exec_SNID`
(`def exec_SNID(fname, z = None, template = 'all', rlap = 'default',
z_tol = 0.02, print_cmd = False)`); the function has no `**kwargs`. -/
def exec_SNID_kwparams : List String :=
  ["fname", "z", "template", "rlap", "z_tol", "print_cmd"]

/-- The keyword-argument names supplied by the `exec_SNID(...)` call inside
`pySNID.SNID_type` (line 27), `SNID_subtype` (line 77) and `SNID_redshift`
(line 119): all three pass `zmin = ...` and `zmax = ...`. -/
def SNID_type_call_kwargs : List String :=
  ["z", "rlap", "z_tol", "zmin", "zmax"]

/-- Python call semantics: a keyword argument is accepted only when it names
one of the callee's formal parameters. -/
def pythonAcceptsKwargs (params supplied : List String) : Bool :=
  supplied.all (fun k => params.contains k)

/-- Python call semantics: calling a function with an unexpected keyword
argument raises `TypeError` before the body runs. -/
def pythonKwCall (params supplied : List String) : Except PyError Unit :=
  if pythonAcceptsKwargs params supplied then .ok () else .error .typeError

/-- One row of the aggregate type table produced by `read_output_file`
(columns `type ntemp fraction slope redshift redshift_error age age_error`). -/
structure TypeRecord where
  type : String
  ntemp : Int
  fraction : ℚ
  slope : ℚ
  redshift : ℚ
  redshift_error : ℚ
  age : ℚ
  age_error : ℚ
deriving DecidableEq

/-- One row of the per-template table produced by `read_output_file`
(columns `no. sn type lap rlap z zerr age age_flag grade`). -/
structure TemplateRecord where
  no : Int
  sn : String
  type : String
  lap : ℚ
  rlap : ℚ
  z : ℚ
  zerr : ℚ
  age : ℚ
  age_flag : Int
  grade : String
deriving DecidableEq

/-- The boolean-mask selection `template_results[template_results['grade'] ==
'good']` used by every stage evaluator. -/
def goodsOf (tpl : List TemplateRecord) : List TemplateRecord :=
  tpl.filter (fun r => r.grade == "good")

/-- The fixed list of non-supernova labels compared verbatim in `SNID_type`. -/
def nonSNLabels : List String :=
  ["NotSN", "AGN", "Gal", "LBV", "M-star", "C-Star", "QSO"]

/-- The best-template type comparison value of `SNID_type` (lines 48-52):
the type label of the best template, truncated to its first two characters
unless it is one of the fixed non-supernova labels. -/
def bestTemplateType (best : TemplateRecord) : String :=
  if best.type ∉ nonSNLabels then best.type.take 2 else best.type

/-- Model of `np.max` on a 1-d selection: `ValueError` (here `none`) on an
empty selection, otherwise the maximum. -/
def listMax : List ℚ → Option ℚ
  | [] => none
  | x :: xs => some (xs.foldl max x)

/-- The row selection shared by the three `type_results[...][...][0]`
expressions in `SNID_type`: the first row whose fraction attains the maximum
fraction (`none` when the table is empty). -/
def favoredRow (tt : List TypeRecord) : Option TypeRecord :=
  match listMax (tt.map (·.fraction)) with
  | none => none
  | some m => (tt.filter (fun r => decide (r.fraction = m))).head?

/-- Sum of a list of rationals. -/
def qsum : List ℚ → ℚ
  | [] => 0
  | x :: xs => x + qsum xs

/-- Arithmetic mean (0 on the empty list, which the code never takes). -/
def qmean (xs : List ℚ) : ℚ := qsum xs / (xs.length : ℚ)

/-- Population variance, `mean ((x - mean xs)^2)`, as used by `np.std`. -/
def qvariance (xs : List ℚ) : ℚ :=
  qmean (xs.map (fun x => (x - qmean xs) ^ 2))

/-- Model of `np.std`: the square root of the population variance. -/
noncomputable def std (xs : List ℚ) : ℝ := Real.sqrt ((qvariance xs : ℚ) : ℝ)

/-- Insert into a sorted list (ascending). -/
def insertSorted (x : ℚ) : List ℚ → List ℚ
  | [] => [x]
  | y :: ys => if x ≤ y then x :: y :: ys else y :: insertSorted x ys

/-- Insertion sort, ascending. -/
def qsort : List ℚ → List ℚ
  | [] => []
  | x :: xs => insertSorted x (qsort xs)

/-- Model of `np.median`: sort, then take the middle element (odd length) or
the average of the two middle elements (even length). -/
def qmedian (xs : List ℚ) : ℚ :=
  let s := qsort xs
  let n := xs.length
  if n % 2 = 1 then s.getD (n / 2) 0
  else (s.getD (n / 2 - 1) 0 + s.getD (n / 2) 0) / 2

/-- Embedding of the decision logic of `pySNID.SNID_type` on the parsed
tables (lines 40-55 of pySNID/pySNID.py).  `np.max` of an empty `fraction`
column raises `ValueError`; `[...][0]` on an empty selection raises
`IndexError`; otherwise the favored type is returned iff its fraction is at
least 0.5 and it equals the (possibly truncated) type of the first
'good'-grade template row. -/
def SNID_typeDecision (tt : List TypeRecord) (tpl : List TemplateRecord) :
    Except PyError (Option (String × TemplateRecord × Int)) :=
  match listMax (tt.map (·.fraction)) with
  | none => .error .valueError
  | some m =>
    match (tt.filter (fun r => decide (r.fraction = m))).head? with
    | none => .error .indexError
    | some fav =>
      match (goodsOf tpl).head? with
      | none => .error .indexError
      | some best =>
        .ok (if fav.fraction ≥ 0.5 ∧ fav.type = bestTemplateType best then
               some (fav.type, best, fav.ntemp)
             else none)

/-- Embedding of the decision logic of `pySNID.SNID_subtype` on the parsed
tables (lines 88-98 of pySNID/pySNID.py).  The type table is first masked to
the rows whose label differs from the forced `template_type`; `np.max` of the
masked `fraction` column raises `ValueError` when the mask is empty; the
best-template lookup raises `IndexError` when there is no 'good' row; no
truncation is applied to the best template's type. -/
def SNID_subtypeDecision (tt : List TypeRecord) (tpl : List TemplateRecord)
    (template_type : String) : Except PyError (Option String) :=
  let tp_res_masked := tt.filter (fun r => !(r.type == template_type))
  match listMax (tp_res_masked.map (·.fraction)) with
  | none => .error .valueError
  | some m =>
    match (tp_res_masked.filter (fun r => decide (r.fraction = m))).head? with
    | none => .error .indexError
    | some fav =>
      match (goodsOf tpl).head? with
      | none => .error .indexError
      | some best =>
        .ok (if fav.fraction ≥ 0.5 ∧ fav.type = best.type then
               some fav.type
             else none)

/-- Embedding of the decision logic of `pySNID.SNID_redshift` on the parsed
tables (lines 128-134 of pySNID/pySNID.py): the median and the standard
deviation of the `z` field of the 'good'-grade rows, or `(None, None)` when
there are none.  The `len(redshifts) > 0` guard makes this total: no
exception can be raised. -/
noncomputable def SNID_redshiftDecision (_tt : List TypeRecord)
    (tpl : List TemplateRecord) : Option ℚ × Option ℝ :=
  let redshifts := (goodsOf tpl).map (·.z)
  if redshifts.length > 0 then
    (some (qmedian redshifts), some (std redshifts))
  else (none, none)

/-- The age selection of `SNID_age` (line 176): the `age` field of the rows
that are 'good'-grade and have rlap at least `0.75 * rlap_best`. -/
def admittedAges (tpl : List TemplateRecord) (rlap_best : ℚ) : List ℚ :=
  (tpl.filter (fun r =>
    r.grade == "good" && decide (r.rlap ≥ 0.75 * rlap_best))).map (·.age)

/-- Embedding of the decision logic of `pySNID.SNID_age` on the parsed
tables (lines 170-189 of pySNID/pySNID.py): `rlap_best` is the rlap of the
first 'good' row (`IndexError` when there is none); the ages are taken from
the 'good' rows with rlap at least `0.75 * rlap_best`; the age is their
median and the error their standard deviation; with restrictions active the
pair is returned only when `age_err < 4 or age_err < np.abs(0.2 * age)`. -/
noncomputable def SNID_ageDecision (_tt : List TypeRecord)
    (tpl : List TemplateRecord) (relax_age_restr : Bool) :
    Except PyError (Option ℚ × Option ℝ) :=
  match ((goodsOf tpl).map (·.rlap)).head? with
  | none => .error .indexError
  | some rlap_best =>
    let ages := admittedAges tpl rlap_best
    let age := qmedian ages
    let age_err := std ages
    if relax_age_restr = false then
      if age_err < 4 ∨ age_err < |(0.2 : ℝ) * (age : ℝ)| then
        .ok (some age, some age_err)
      else .ok (none, none)
    else .ok (some age, some age_err)

/-- Does `pat` occur at the start of the character list? -/
def charsPrefixOf : List Char → List Char → Bool
  | [], _ => true
  | _ :: _, [] => false
  | c :: cs, d :: ds => c == d && charsPrefixOf cs ds

/-- Does `pat` occur anywhere in the character list? -/
def charsContains (pat : List Char) : List Char → Bool
  | [] => charsPrefixOf pat []
  | c :: rest => charsPrefixOf pat (c :: rest) || charsContains pat rest

/-- Python substring membership `sstring in line`. -/
def strContains (line sstring : String) : Bool :=
  charsContains sstring.toList line.toList

/-- Helper for `it_line_locate`: scan with a running line counter. -/
def it_line_locate_aux (sstring : String) : List String → Nat → Option Nat
  | [], _ => none
  | l :: ls, line_num =>
    if strContains l sstring then some line_num
    else it_line_locate_aux sstring ls (line_num + 1)

/-- Embedding of `pySNIDutils._it_line_locate` (and the identical
`SNID_utils.it_line_locate`): the zero-based number of the first line of the
file containing `sstring`, or `None` when no line contains it.  The file is
modelled as its list of lines. -/
def it_line_locate (lines : List String) (sstring : String) : Option Nat :=
  it_line_locate_aux sstring lines 0

/-- Column names of the type-results section (`tp_col_names`). -/
def tp_col_names : List String :=
  ["type", "ntemp", "fraction", "slope", "redshift", "redshift_error",
   "age", "age_error"]

/-- The delimiter located to end the type section. -/
def typeSectionDelim : String := "### rlap-ordered template listings ###"

/-- The delimiter located to end the template section. -/
def rlapCutoffDelim : String := "#--- rlap cutoff"

/-- The literal column-header line `'#' + ' '.join(tp_col_names)` scanned for
by the self-healing retry. -/
def typeHeaderLine : String := "#" ++ String.intercalate " " tp_col_names

/-- Embedding of the `while True` retry loop of `read_output_file`.  One unit
of fuel is one `np.genfromtxt` attempt (`gftType start max_rows`), so `none`
means the loop is still running after `fuel` attempts.  A `ValueError` is
caught: the start offset is re-located from the column-header line
(`None + 1` would raise `TypeError`) and `max_rows` is recomputed from the
section delimiter; any other exception propagates.  On success the parsed
rows and the final `(tp_res_start, max_rows_type)` are returned. -/
def typeLoop (lines : List String)
    (gftType : Int → Int → Except PyError (List TypeRecord)) :
    Nat → Int → Int → Option (Except PyError (List TypeRecord × Int × Int))
  | 0, _, _ => none
  | fuel + 1, tp_res_start, max_rows_type =>
    match gftType tp_res_start max_rows_type with
    | .ok type_results => some (.ok (type_results, tp_res_start, max_rows_type))
    | .error .valueError =>
      match it_line_locate lines typeHeaderLine with
      | none => some (.error .typeError)
      | some h =>
        match it_line_locate lines typeSectionDelim with
        | none => some (.error .typeError)
        | some d =>
          typeLoop lines gftType fuel ((h : Int) + 1)
            ((d : Int) - ((h : Int) + 1) - 5)
    | .error e => some (.error e)

/-- Embedding of `pySNIDutils.read_output_file` (and the identical
`SNID_utils.read_output_file`).  The two `np.genfromtxt` span parses are
abstract parameters `gftType`/`gftRlap` taking `(skip_header, max_rows)`;
the file is its list of lines.  Locating a delimiter that is absent yields
`None`, and the arithmetic done on that result (`None - ... `, `None + 1`)
raises `TypeError`.  The result is `none` when the retry loop is still
running after `fuel` parse attempts. -/
def read_output_file (lines : List String)
    (gftType : Int → Int → Except PyError (List TypeRecord))
    (gftRlap : Int → Int → Except PyError (List TemplateRecord))
    (fuel : Nat) :
    Option (Except PyError (List TypeRecord × List TemplateRecord)) :=
  let tp_res_start : Int := 39
  match it_line_locate lines typeSectionDelim with
  | none => some (.error .typeError)
  | some d1 =>
    let max_rows_type : Int := (d1 : Int) - tp_res_start - 5
    match typeLoop lines gftType fuel tp_res_start max_rows_type with
    | none => none
    | some (.error e) => some (.error e)
    | some (.ok (type_results, start, mrt)) =>
      let rlap_res_start : Int := start + mrt + 7
      match it_line_locate lines rlapCutoffDelim with
      | none => some (.error .typeError)
      | some d2 =>
        let max_rows_rlap : Int := (d2 : Int) - rlap_res_start
        match gftRlap rlap_res_start max_rows_rlap with
        | .error e => some (.error e)
        | .ok template_results => some (.ok (type_results, template_results))

/-- The 8-tuple returned by `pySNID.pySNID`. -/
abbrev PipelineResult :=
  Option String × Option TemplateRecord × Option Int × Option String ×
    Option ℚ × Option ℝ × Option ℚ × Option ℝ

/-- Embedding of the orchestrator `pySNID.pySNID` (lines 222-260 of
pySNID/pySNID.py).  Each stage call (subprocess + parse + decision) is an
oracle keyed by the arguments that vary between calls: the rlap threshold
for the type stage, the template restriction and rlap for the subtype stage,
the template restriction for the redshift stage, and the redshift value and
template restriction for the age stage.  An oracle returns `Except` so that
an exception in a stage propagates, as in the source. -/
def pySNIDpipeline
    (typeO : ℚ → Except PyError (Option (String × TemplateRecord × Int)))
    (subtypeO : String → ℚ → Except PyError (Option String))
    (redshiftO : String → Except PyError (Option ℚ × Option ℝ))
    (ageO : ZVal → String → Except PyError (Option ℚ × Option ℝ))
    (z : ZVal) (rlap1 rlap2 : ℚ) : Except PyError PipelineResult :=
  match typeO rlap1 with
  | .error e => .error e
  | .ok t1 =>
    match (match t1 with | none => typeO rlap2 | some v => .ok (some v)) with
    | .error e => .error e
    | .ok none => .ok (none, none, none, none, none, none, none, none)
    | .ok (some (sn_type, best_templ, good_num)) =>
      match subtypeO sn_type rlap1 with
      | .error e => .error e
      | .ok s1 =>
        match (match s1 with
               | none => subtypeO sn_type rlap2
               | some v => .ok (some v)) with
        | .error e => .error e
        | .ok (some sn_subtype) =>
          match redshiftO sn_subtype with
          | .error e => .error e
          | .ok (z_snid, z_snid_error) =>
            if z_snid.isSome && z_snid_error.isSome then
              match ageO (if pyTypeIsFloat z || pyTypeIsInt z then z
                          else .pyFloat (z_snid.getD 0)) sn_subtype with
              | .error e => .error e
              | .ok (age, age_error) =>
                .ok (some sn_type, some best_templ, some good_num,
                  some sn_subtype, z_snid, z_snid_error, age, age_error)
            else
              .ok (some sn_type, some best_templ, some good_num,
                some sn_subtype, z_snid, z_snid_error, none, none)
        | .ok none =>
          match redshiftO sn_type with
          | .error e => .error e
          | .ok (z_snid, z_snid_error) =>
            .ok (some sn_type, some best_templ, some good_num, none,
              z_snid, z_snid_error, none, none)

/-- Example aggregate-table row: type Ia with fraction 0.6 (spec §8 example). -/
def exTypeIa : TypeRecord := ⟨"Ia", 5, 0.6, 0, 0.05, 0.01, 10, 2⟩

/-- Example aggregate-table row: type Ib with fraction 0.4 (spec §8 example). -/
def exTypeIb : TypeRecord := ⟨"Ib", 3, 0.4, 0, 0.05, 0.01, 10, 2⟩

/-- Example template-table row: a 'good' Ia-norm match. -/
def exBestIa : TemplateRecord :=
  ⟨1, "sn1995D", "Ia-norm", 0.9, 12, 0.05, 0.005, 3, 0, "good"⟩

/-- Example template-table row graded 'bad': not a 'good' match. -/
def exBadTemplate : TemplateRecord :=
  ⟨1, "sn1999aa", "Ia-norm", 0.9, 4, 0.05, 0.005, 3, 0, "bad"⟩

/-- Age-stage example row 1 (spec §8): age 10, rlap 100, 'good'. -/
def exAgeT1 : TemplateRecord :=
  ⟨1, "t1", "Ia-norm", 0.9, 100, 0.05, 0.005, 10, 0, "good"⟩

/-- Age-stage example row 2 (spec §8): age 12, rlap 95, 'good'. -/
def exAgeT2 : TemplateRecord :=
  ⟨2, "t2", "Ia-norm", 0.9, 95, 0.05, 0.005, 12, 0, "good"⟩

/-- Age-stage example row 3 (spec §8): age 11, rlap 90, 'good'. -/
def exAgeT3 : TemplateRecord :=
  ⟨3, "t3", "Ia-norm", 0.9, 90, 0.05, 0.005, 11, 0, "good"⟩

/-- Age-stage example row 4 (spec §8): age 50, rlap 20, 'good'. -/
def exAgeT4 : TemplateRecord :=
  ⟨4, "t4", "Ia-norm", 0.9, 20, 0.05, 0.005, 50, 0, "good"⟩

/-- The age-stage example table of spec §8. -/
def exAgeTbl : List TemplateRecord := [exAgeT1, exAgeT2, exAgeT3, exAgeT4]

/-- A type-stage oracle that always determines type Ia. -/
def exTypeO : ℚ → Except PyError (Option (String × TemplateRecord × Int)) :=
  fun _ => .ok (some ("Ia", exBestIa, 5))

/-- A subtype-stage oracle that is always undetermined. -/
def exSubtypeO : String → ℚ → Except PyError (Option String) :=
  fun _ _ => .ok none

/-- A redshift-stage oracle returning redshift 0.05 with zero error. -/
def exRedshiftO : String → Except PyError (Option ℚ × Option ℝ) :=
  fun _ => .ok (some 0.05, some 0)

/-- An age-stage oracle returning age 11 with zero error. -/
def exAgeO : ZVal → String → Except PyError (Option ℚ × Option ℝ) :=
  fun _ _ => .ok (some 11, some 0)

/-- A type-span parse that always fails with `ValueError` (malformed field). -/
def failTypeParse : Int → Int → Except PyError (List TypeRecord) :=
  fun _ _ => .error .valueError

/-- A template-span parse returning an empty row list. -/
def emptyRlapParse : Int → Int → Except PyError (List TemplateRecord) :=
  fun _ _ => .ok []

/-- A report whose lines contain the column-header line and both delimiters,
used to drive the retry loop. -/
def c3lines : List String := [typeHeaderLine, typeSectionDelim, rlapCutoffDelim]

theorem head_some_mem {α : Type*} {l : List α} {a : α}
    (h : l.head? = some a) : a ∈ l := by
  cases l with
  | nil => simp at h
  | cons x xs =>
    simp only [List.head?_cons, Option.some.injEq] at h
    exact h ▸ List.mem_cons_self x xs

theorem foldl_max_mem (xs : List ℚ) (a : ℚ) :
    xs.foldl max a = a ∨ xs.foldl max a ∈ xs := by
  induction xs generalizing a with
  | nil => exact Or.inl rfl
  | cons x xs ih =>
    rw [List.foldl_cons]
    rcases ih (max a x) with h | h
    · rw [h]
      rcases max_choice a x with h2 | h2
      · exact Or.inl h2
      · right
        rw [h2]
        exact List.mem_cons_self x xs
    · exact Or.inr (List.mem_cons_of_mem x h)

theorem le_foldl_max (xs : List ℚ) (a : ℚ) :
    a ≤ xs.foldl max a ∧ ∀ b ∈ xs, b ≤ xs.foldl max a := by
  induction xs generalizing a with
  | nil => exact ⟨le_refl a, by simp⟩
  | cons x xs ih =>
    obtain ⟨h1, h2⟩ := ih (max a x)
    rw [List.foldl_cons]
    refine ⟨le_trans (le_max_left a x) h1, ?_⟩
    intro b hb
    rcases List.mem_cons.mp hb with rfl | hb
    · exact le_trans (le_max_right a b) h1
    · exact h2 b hb

theorem listMax_spec {l : List ℚ} {m : ℚ} (h : listMax l = some m) :
    m ∈ l ∧ ∀ a ∈ l, a ≤ m := by
  cases l with
  | nil => simp [listMax] at h
  | cons x xs =>
    simp only [listMax, Option.some.injEq] at h
    subst h
    constructor
    · rcases foldl_max_mem xs x with h | h
      · rw [h]
        exact List.mem_cons_self x xs
      · exact List.mem_cons_of_mem x h
    · intro a ha
      rcases List.mem_cons.mp ha with rfl | ha
      · exact (le_foldl_max xs a).1
      · exact (le_foldl_max xs x).2 a ha

theorem favoredRow_spec {tt : List TypeRecord} {fav : TypeRecord}
    (h : favoredRow tt = some fav) :
    fav ∈ tt ∧ ∀ r ∈ tt, r.fraction ≤ fav.fraction := by
  unfold favoredRow at h
  cases hm : listMax (tt.map (·.fraction)) with
  | none => rw [hm] at h; simp at h
  | some m =>
    rw [hm] at h
    have hmem := head_some_mem h
    have hfr := List.of_mem_filter hmem
    simp only [decide_eq_true_eq] at hfr
    obtain ⟨-, hub⟩ := listMax_spec hm
    refine ⟨List.mem_of_mem_filter hmem, fun r hr => ?_⟩
    rw [hfr]
    exact hub r.fraction (List.mem_map_of_mem _ hr)

/-- Claim C2 (code evaluation): the forced-redshift formatters evaluated over
the five input kinds.  `_z_arg` (pySNIDutils) drops the token for an int
input, because its guard reads `type(z) == (1)` - a type compared with the
integer 1, always False - instead of `type(z) == type(1)`; and the variant
`z_arg` (SNID_utils) emits `forcez=nan` for NaN because it never checks
`np.isnan`.  Both contradict the claim (and `_z_arg`'s own docstring, which
says a float or int redshift is counted). -/
theorem c2_z_arg_eval :
    _z_arg (.pyInt 1) = "" ∧
    z_arg .pyNaN = "forcez=" ++ formatPy .pyNaN ∧
    _z_arg (.pyFloat 0.05) = "forcez=" ++ formatPy (.pyFloat 0.05) ∧
    _z_arg .pyNaN = "" ∧
    _z_arg .pyNone = "" ∧
    _z_arg (.pyStr "unknown") = "" ∧
    z_arg (.pyInt 1) = "forcez=" ++ formatPy (.pyInt 1) :=
  ⟨rfl, rfl, rfl, rfl, rfl, rfl, rfl⟩

/-- Claim C9 (code evaluation): `exec_SNID` has no `zmin`/`zmax` parameters
at all, while the `exec_SNID(...)` calls in `SNID_type`, `SNID_subtype` and
`SNID_redshift` always supply `zmin = ...` and `zmax = ...` keywords, so
every such call raises `TypeError` before any formatting happens; no
redshift-bounds token can ever be emitted. -/
theorem c9_exec_SNID_bounds_bug :
    pythonKwCall exec_SNID_kwparams SNID_type_call_kwargs =
      .error .typeError ∧
    ("zmin" ∈ SNID_type_call_kwargs ∧ "zmax" ∈ SNID_type_call_kwargs) ∧
    ("zmin" ∉ exec_SNID_kwparams ∧ "zmax" ∉ exec_SNID_kwparams) :=
  ⟨rfl, by decide, by decide⟩

/-- Claim C10: when every row of the type table carries the forced template
type, the masked table `type_results[type_results['type'] != template_type]`
is empty and `np.max` of its `fraction` column raises `ValueError`, so
`SNID_subtype` raises instead of returning undetermined. -/
theorem c10_subtype_raises_on_uniform_types (tt : List TypeRecord)
    (tpl : List TemplateRecord) (template_type : String)
    (h : ∀ r ∈ tt, r.type = template_type) :
    SNID_subtypeDecision tt tpl template_type = .error .valueError := by
  have hmask : tt.filter (fun r => !(r.type == template_type)) = [] := by
    rw [List.filter_eq_nil_iff]
    intro a ha
    simp [h a ha]
  simp [SNID_subtypeDecision, hmask, listMax]

/-- Witness for claim C10 at a concrete input: a one-row type table whose
only label is the forced type. -/
theorem c10_subtype_raises_witness :
    (∀ r ∈ [exTypeIa], r.type = "Ia") ∧
    SNID_subtypeDecision [exTypeIa] [] "Ia" = .error .valueError :=
  ⟨by simp [exTypeIa], c10_subtype_raises_on_uniform_types _ _ _
    (by simp [exTypeIa])⟩

/-- Claim C5: given that the favored-row selection and the best-template
lookup succeed, the Type stage accepts a type if and only if the
maximum-fraction row of the type table has fraction at least 0.5 and its
label equals the best template's type truncated to its two-character prefix
(verbatim for the fixed non-supernova labels); otherwise it returns
undetermined (None fields).  The first conjunct certifies that the favored
row really is a maximum-fraction row. -/
theorem c5_type_stage (tt : List TypeRecord) (tpl : List TemplateRecord)
    (fav : TypeRecord) (best : TemplateRecord)
    (hfav : favoredRow tt = some fav)
    (hbest : (goodsOf tpl).head? = some best) :
    (fav ∈ tt ∧ ∀ r ∈ tt, r.fraction ≤ fav.fraction) ∧
    (fav.fraction ≥ 0.5 ∧ fav.type = bestTemplateType best →
      SNID_typeDecision tt tpl = .ok (some (fav.type, best, fav.ntemp))) ∧
    (¬(fav.fraction ≥ 0.5 ∧ fav.type = bestTemplateType best) →
      SNID_typeDecision tt tpl = .ok none) := by
  refine ⟨favoredRow_spec hfav, ?_, ?_⟩
  all_goals
    intro hcond
    unfold favoredRow at hfav
    cases hm : listMax (tt.map (·.fraction)) with
    | none => simp [hm] at hfav
    | some m =>
      simp only [hm] at hfav
      simp only [SNID_typeDecision, hm, hfav, hbest]
      first
        | rw [if_pos hcond]
        | rw [if_neg hcond]

/-- Witness for claim C5 at the spec §8 example: TypeTable rows
("Ia", 0.6) and ("Ib", 0.4), first 'good' template of type "Ia-norm";
the stage returns type "Ia". -/
theorem c5_type_stage_witness :
    favoredRow [exTypeIa, exTypeIb] = some exTypeIa ∧
    (goodsOf [exBestIa]).head? = some exBestIa ∧
    SNID_typeDecision [exTypeIa, exTypeIb] [exBestIa] =
      .ok (some ("Ia", exBestIa, 5)) := by
  have hfav : favoredRow [exTypeIa, exTypeIb] = some exTypeIa := by
    simp [favoredRow, listMax, exTypeIa, exTypeIb]
    norm_num
  have hbest : (goodsOf [exBestIa]).head? = some exBestIa := by
    simp [goodsOf, exBestIa]
  have hcond : exTypeIa.fraction ≥ 0.5 ∧
      exTypeIa.type = bestTemplateType exBestIa := by
    constructor
    · norm_num [exTypeIa]
    · simp only [exTypeIa, bestTemplateType, exBestIa, nonSNLabels]
      decide
  have h := (c5_type_stage _ _ _ _ hfav hbest).2.1 hcond
  exact ⟨hfav, hbest, by simpa [exTypeIa] using h⟩

/-- Claim C1 counterexample: on a report whose template table has no 'good'
row, the best-template lookup `template_results[...]['grade'] == 'good'][0]`
raises `IndexError` in `SNID_type`, `SNID_subtype` and `SNID_age` - they do
not return their undetermined (None) results. -/
theorem c1_counterexample :
    SNID_typeDecision [exTypeIa] [exBadTemplate] = .error .indexError ∧
    SNID_subtypeDecision [exTypeIa, exTypeIb] [exBadTemplate] "Ia" =
      .error .indexError ∧
    SNID_ageDecision [exTypeIa] [exBadTemplate] false = .error .indexError := by
  refine ⟨?_, ?_, ?_⟩ <;>
    simp [SNID_typeDecision, SNID_subtypeDecision, SNID_ageDecision,
      goodsOf, listMax, exTypeIa, exTypeIb, exBadTemplate]

/-- Claim C1 (amended): when the template table contains zero 'good' rows,
the stage evaluators that look up a best template (`SNID_type`,
`SNID_subtype`, `SNID_age`) fail with `IndexError` rather than returning
their undetermined results; only `SNID_redshift`, which guards with a length
check, returns the undetermined pair (None, None). -/
theorem c1_amended_no_good_rows (tt : List TypeRecord)
    (tpl : List TemplateRecord) (template_type : String) (relax : Bool)
    (fav favm : TypeRecord)
    (hg : goodsOf tpl = [])
    (hfav : favoredRow tt = some fav)
    (hmask : favoredRow (tt.filter (fun r => !(r.type == template_type))) =
      some favm) :
    SNID_typeDecision tt tpl = .error .indexError ∧
    SNID_subtypeDecision tt tpl template_type = .error .indexError ∧
    SNID_ageDecision tt tpl relax = .error .indexError ∧
    SNID_redshiftDecision tt tpl = (none, none) := by
  refine ⟨?_, ?_, ?_, ?_⟩
  · unfold favoredRow at hfav
    cases hm : listMax (tt.map (·.fraction)) with
    | none => simp [hm] at hfav
    | some m =>
      simp only [hm] at hfav
      simp only [SNID_typeDecision, hm, hfav, hg, List.head?_nil]
  · unfold favoredRow at hmask
    cases hm : listMax ((tt.filter
        (fun r => !(r.type == template_type))).map (·.fraction)) with
    | none => simp [hm] at hmask
    | some m =>
      simp only [hm] at hmask
      simp only [SNID_subtypeDecision, hm, hmask, hg, List.head?_nil]
  · simp [SNID_ageDecision, hg]
  · simp [SNID_redshiftDecision, hg]

/-- Witness for the amended claim C1 at a concrete input: a two-row type
table and a template table whose only row is graded 'bad'. -/
theorem c1_amended_no_good_rows_witness :
    goodsOf [exBadTemplate] = [] ∧
    favoredRow [exTypeIa, exTypeIb] = some exTypeIa ∧
    favoredRow ([exTypeIa, exTypeIb].filter
      (fun r => !(r.type == "Ia"))) = some exTypeIb ∧
    (SNID_typeDecision [exTypeIa, exTypeIb] [exBadTemplate] =
        .error .indexError ∧
      SNID_subtypeDecision [exTypeIa, exTypeIb] [exBadTemplate] "Ia" =
        .error .indexError ∧
      SNID_ageDecision [exTypeIa, exTypeIb] [exBadTemplate] false =
        .error .indexError ∧
      SNID_redshiftDecision [exTypeIa, exTypeIb] [exBadTemplate] =
        (none, none)) := by
  have hg : goodsOf [exBadTemplate] = [] := by simp [goodsOf, exBadTemplate]
  have hfav : favoredRow [exTypeIa, exTypeIb] = some exTypeIa := by
    simp [favoredRow, listMax, exTypeIa, exTypeIb]
    norm_num
  have hmask : favoredRow ([exTypeIa, exTypeIb].filter
      (fun r => !(r.type == "Ia"))) = some exTypeIb := by
    simp [favoredRow, listMax, exTypeIa, exTypeIb]
  exact ⟨hg, hfav, hmask,
    c1_amended_no_good_rows _ _ _ _ _ _ hg hfav hmask⟩

/-- Claim C7: the Redshift stage returns (None, None) exactly when the set
of 'good'-grade template rows is empty, and otherwise returns the median of
their `z` fields together with the standard deviation of that same set; the
function is total, so no computation error is possible. -/
theorem c7_redshift_stage (tt : List TypeRecord) (tpl : List TemplateRecord) :
    (SNID_redshiftDecision tt tpl = (none, none) ↔ goodsOf tpl = []) ∧
    (goodsOf tpl ≠ [] →
      SNID_redshiftDecision tt tpl =
        (some (qmedian ((goodsOf tpl).map (·.z))),
         some (std ((goodsOf tpl).map (·.z))))) := by
  cases h : goodsOf tpl with
  | nil => simp [SNID_redshiftDecision, h]
  | cons g gs => simp [SNID_redshiftDecision, h]

/-- Witness for claim C7 at a concrete input with one 'good' row. -/
theorem c7_redshift_stage_witness :
    goodsOf [exBestIa] ≠ [] ∧
    SNID_redshiftDecision [] [exBestIa] =
      (some (qmedian ((goodsOf [exBestIa]).map (·.z))),
       some (std ((goodsOf [exBestIa]).map (·.z)))) := by
  have h : goodsOf [exBestIa] ≠ [] := by simp [goodsOf, exBestIa]
  exact ⟨h, (c7_redshift_stage [] [exBestIa]).2 h⟩

theorem abs_point_two_mul (a : ℝ) : |(0.2 : ℝ) * a| = 0.2 * |a| := by
  have h : |(0.2 : ℝ)| = 0.2 := abs_of_pos (by norm_num)
  rw [abs_mul, h]

/-- Claim C4: given at least one 'good' template row, the Age stage takes
`rlap_best` as the rlap of the first 'good' row, admits the ages of the
'good' rows with rlap at least `0.75 * rlap_best`, and computes their median
and standard deviation; with the relaxation flag set it always returns the
pair, and with it unset it returns the pair exactly when the error is below
4 or below 0.2 times the absolute age, otherwise (None, None). -/
theorem c4_age_stage (tt : List TypeRecord) (tpl : List TemplateRecord)
    (relax : Bool) (g : TemplateRecord) (gs : List TemplateRecord)
    (hg : goodsOf tpl = g :: gs) :
    (relax = true → SNID_ageDecision tt tpl relax =
      .ok (some (qmedian (admittedAges tpl g.rlap)),
           some (std (admittedAges tpl g.rlap)))) ∧
    (relax = false →
      ((std (admittedAges tpl g.rlap) < 4 ∨
          std (admittedAges tpl g.rlap) <
            0.2 * |((qmedian (admittedAges tpl g.rlap) : ℚ) : ℝ)|) →
        SNID_ageDecision tt tpl relax =
          .ok (some (qmedian (admittedAges tpl g.rlap)),
               some (std (admittedAges tpl g.rlap)))) ∧
      (¬(std (admittedAges tpl g.rlap) < 4 ∨
          std (admittedAges tpl g.rlap) <
            0.2 * |((qmedian (admittedAges tpl g.rlap) : ℚ) : ℝ)|) →
        SNID_ageDecision tt tpl relax = .ok (none, none))) := by
  have habs := abs_point_two_mul ((qmedian (admittedAges tpl g.rlap) : ℚ) : ℝ)
  constructor
  · rintro rfl
    simp only [SNID_ageDecision, hg, List.map_cons, List.head?_cons]
    rw [if_neg (by decide : ¬(true = false))]
  · rintro rfl
    constructor
    · intro hcond
      simp only [SNID_ageDecision, hg, List.map_cons, List.head?_cons]
      rw [if_pos trivial, habs, if_pos hcond]
    · intro hcond
      simp only [SNID_ageDecision, hg, List.map_cons, List.head?_cons]
      rw [if_pos trivial, habs, if_neg hcond]

/-- Witness for claim C4 at the spec §8 example: ages [10, 12, 11, 50] with
rlaps [100, 95, 90, 20], all 'good'; only the ages with rlap at least 75 are
admitted, and their median is 11. -/
theorem c4_age_stage_witness :
    goodsOf exAgeTbl = exAgeT1 :: [exAgeT2, exAgeT3, exAgeT4] ∧
    admittedAges exAgeTbl exAgeT1.rlap = [10, 12, 11] ∧
    qmedian [10, 12, 11] = 11 ∧
    SNID_ageDecision [] exAgeTbl true =
      .ok (some (qmedian (admittedAges exAgeTbl exAgeT1.rlap)),
           some (std (admittedAges exAgeTbl exAgeT1.rlap))) := by
  have hg : goodsOf exAgeTbl = exAgeT1 :: [exAgeT2, exAgeT3, exAgeT4] := by
    simp [goodsOf, exAgeTbl, exAgeT1, exAgeT2, exAgeT3, exAgeT4]
  refine ⟨hg, ?_, ?_, (c4_age_stage [] exAgeTbl true exAgeT1 _ hg).1 rfl⟩
  · simp [admittedAges, exAgeTbl, exAgeT1, exAgeT2, exAgeT3, exAgeT4]
    norm_num
  · simp [qmedian, qsort, insertSorted]
    norm_num

/-- Claim C6: the orchestrator logic of `pySNID`.  If the type stage is
undetermined at both rlap thresholds the pipeline returns with every field
None; if the type stage succeeds (at either threshold) and the subtype stage
is undetermined at both thresholds, the pipeline runs the redshift stage
constrained to the found type and returns the type, no subtype, the
redshift pair, and no age - the age oracle is never consulted (the result
does not depend on `ageO`). -/
theorem c6_pipeline_branches
    (typeO : ℚ → Except PyError (Option (String × TemplateRecord × Int)))
    (subtypeO : String → ℚ → Except PyError (Option String))
    (redshiftO : String → Except PyError (Option ℚ × Option ℝ))
    (ageO : ZVal → String → Except PyError (Option ℚ × Option ℝ))
    (z : ZVal) (rlap1 rlap2 : ℚ) :
    (typeO rlap1 = .ok none → typeO rlap2 = .ok none →
      pySNIDpipeline typeO subtypeO redshiftO ageO z rlap1 rlap2 =
        .ok (none, none, none, none, none, none, none, none)) ∧
    (∀ T bt n zs zse,
      (typeO rlap1 = .ok (some (T, bt, n)) ∨
        (typeO rlap1 = .ok none ∧ typeO rlap2 = .ok (some (T, bt, n)))) →
      subtypeO T rlap1 = .ok none → subtypeO T rlap2 = .ok none →
      redshiftO T = .ok (zs, zse) →
      pySNIDpipeline typeO subtypeO redshiftO ageO z rlap1 rlap2 =
        .ok (some T, some bt, some n, none, zs, zse, none, none)) := by
  constructor
  · intro h1 h2
    simp only [pySNIDpipeline, h1, h2]
  · rintro T bt n zs zse (hA | ⟨hA1, hA2⟩) hs1 hs2 hr
    · simp only [pySNIDpipeline, hA, hs1, hs2, hr]
    · simp only [pySNIDpipeline, hA1, hA2, hs1, hs2, hr]

/-- Witness for claim C6 at concrete oracles: type "Ia" found at the strict
threshold, subtype undetermined at both thresholds, redshift (0.05, 0). -/
theorem c6_pipeline_branches_witness :
    exTypeO 10 = .ok (some ("Ia", exBestIa, 5)) ∧
    exSubtypeO "Ia" 10 = .ok none ∧
    exSubtypeO "Ia" 5 = .ok none ∧
    exRedshiftO "Ia" = .ok (some 0.05, some 0) ∧
    pySNIDpipeline exTypeO exSubtypeO exRedshiftO exAgeO .pyNone 10 5 =
      .ok (some "Ia", some exBestIa, some 5, none, some 0.05, some 0,
        none, none) :=
  ⟨rfl, rfl, rfl, rfl,
    (c6_pipeline_branches exTypeO exSubtypeO exRedshiftO exAgeO
        .pyNone 10 5).2 "Ia" exBestIa 5 (some 0.05) (some 0)
      (Or.inl rfl) rfl rfl rfl⟩

theorem typeLoop_stuck (lines : List String)
    (gftType : Int → Int → Except PyError (List TypeRecord)) (h d : Nat)
    (hh : it_line_locate lines typeHeaderLine = some h)
    (hd : it_line_locate lines typeSectionDelim = some d)
    (hfail : gftType ((h : Int) + 1) ((d : Int) - ((h : Int) + 1) - 5) =
      .error .valueError) :
    ∀ fuel, typeLoop lines gftType fuel ((h : Int) + 1)
      ((d : Int) - ((h : Int) + 1) - 5) = none := by
  intro fuel
  induction fuel with
  | zero => rfl
  | succ n ih =>
    simp only [typeLoop, hfail, hh, hd]
    exact ih

/-- Claim C3 counterexample: with a span parse that always fails with
`ValueError` on a report containing the column-header line and both
delimiters, the parser is still looping after two parse attempts - and
after five - so it neither retries only once nor terminates within two
attempts. -/
theorem c3_counterexample :
    read_output_file c3lines failTypeParse emptyRlapParse 2 = none ∧
    read_output_file c3lines failTypeParse emptyRlapParse 5 = none := by
  constructor <;> rfl

/-- Claim C3 (amended): when the first type-span parse fails with
`ValueError`, the parser re-locates the start from the column-header line
and retries at the corrected offset; if that retry succeeds, parsing is done
within two parse attempts, but if the retry fails with `ValueError` again
the loop recomputes the same corrected offset and retries forever - the
number of attempts is unbounded, not at most two. -/
theorem c3_selfheal_retry (lines : List String)
    (gftType : Int → Int → Except PyError (List TypeRecord)) (h d : Nat)
    (hh : it_line_locate lines typeHeaderLine = some h)
    (hd : it_line_locate lines typeSectionDelim = some d)
    (hfail1 : gftType 39 ((d : Int) - 39 - 5) = .error .valueError) :
    (∀ tt, gftType ((h : Int) + 1) ((d : Int) - ((h : Int) + 1) - 5) =
        .ok tt →
      typeLoop lines gftType 2 39 ((d : Int) - 39 - 5) =
        some (.ok (tt, (h : Int) + 1, (d : Int) - ((h : Int) + 1) - 5))) ∧
    (gftType ((h : Int) + 1) ((d : Int) - ((h : Int) + 1) - 5) =
        .error .valueError →
      ∀ fuel, typeLoop lines gftType fuel 39 ((d : Int) - 39 - 5) = none) := by
  constructor
  · intro tt hok
    simp only [typeLoop, hfail1, hh, hd, hok]
  · intro hfail2 fuel
    cases fuel with
    | zero => rfl
    | succ n =>
      simp only [typeLoop, hfail1, hh, hd]
      exact typeLoop_stuck lines gftType h d hh hd hfail2 n

/-- Witness for the amended claim C3 at a concrete input: the report
`c3lines` (header line at 0, type-section delimiter at 1) with an
always-failing span parse; after the failing retry the loop is still
running at fuel 4. -/
theorem c3_selfheal_retry_witness :
    it_line_locate c3lines typeHeaderLine = some 0 ∧
    it_line_locate c3lines typeSectionDelim = some 1 ∧
    failTypeParse 39 ((1 : Int) - 39 - 5) = .error .valueError ∧
    typeLoop c3lines failTypeParse 4 39 ((1 : Int) - 39 - 5) = none := by
  refine ⟨rfl, rfl, rfl, ?_⟩
  have h := (c3_selfheal_retry c3lines failTypeParse 0 1 rfl rfl rfl).2 rfl 4
  simpa using h

theorem it_line_locate_aux_not_found (sstring : String) (lines : List String)
    (h : ∀ l ∈ lines, strContains l sstring = false) :
    ∀ n, it_line_locate_aux sstring lines n = none := by
  induction lines with
  | nil => intro n; rfl
  | cons x xs ih =>
    intro n
    have hx := h x (List.mem_cons_self x xs)
    simp only [it_line_locate_aux, hx, Bool.false_eq_true, if_false]
    exact ih (fun l hl => h l (List.mem_cons_of_mem x hl)) (n + 1)

theorem it_line_locate_not_found (lines : List String) (sstring : String)
    (h : ∀ l ∈ lines, strContains l sstring = false) :
    it_line_locate lines sstring = none :=
  it_line_locate_aux_not_found sstring lines h 0

/-- Claim C8: when a required delimiter (the template-listings marker or the
rlap-cutoff marker) occurs on no line of the report, the locating scan
returns not-found (`None`), and the parser never returns a parsed pair of
tables: every terminating run surfaces an error (the `TypeError` raised by
doing arithmetic on `None`), never a silently empty table. -/
theorem c8_missing_delimiter (lines : List String)
    (gftType : Int → Int → Except PyError (List TypeRecord))
    (gftRlap : Int → Int → Except PyError (List TemplateRecord)) (s : String)
    (hs : s = typeSectionDelim ∨ s = rlapCutoffDelim)
    (hocc : ∀ l ∈ lines, strContains l s = false) :
    it_line_locate lines s = none ∧
    ∀ fuel r, read_output_file lines gftType gftRlap fuel ≠
      some (.ok r) := by
  have hnone := it_line_locate_not_found lines s hocc
  refine ⟨hnone, ?_⟩
  intro fuel r
  rcases hs with rfl | rfl
  · simp [read_output_file, hnone]
  · unfold read_output_file
    cases hd1 : it_line_locate lines typeSectionDelim with
    | none => simp
    | some d1 =>
      cases hloop : typeLoop lines gftType fuel 39 ((d1 : Int) - 39 - 5) with
      | none => simp [hloop]
      | some res =>
        cases res with
        | error e => simp [hloop]
        | ok trio =>
          obtain ⟨tts, st, mrt⟩ := trio
          simp [hloop, hnone]

/-- Witness for claim C8 at a concrete input: a one-line report containing
neither delimiter; the scan for the template-listings marker returns None
and the parser cannot return tables. -/
theorem c8_missing_delimiter_witness :
    (∀ l ∈ ["hello"], strContains l typeSectionDelim = false) ∧
    it_line_locate ["hello"] typeSectionDelim = none ∧
    read_output_file ["hello"] failTypeParse emptyRlapParse 3 ≠
      some (.ok ([], [])) := by
  have hocc : ∀ l ∈ ["hello"], strContains l typeSectionDelim = false := by
    decide
  have h := c8_missing_delimiter ["hello"] failTypeParse emptyRlapParse
    typeSectionDelim (Or.inl rfl) hocc
  exact ⟨hocc, h.1, h.2 3 ([], [])⟩
